import Mathlib

/-!
Shallow embedding of `awards_bot.py` (saraargh/awardsbot): the GitHub-backed
JSON document store, the run lifecycle operations and the tally/reveal engine,
together with proofs settling the specification claims.

Conventions of the embedding:
* machine time (`datetime` / ISO strings) is represented by `Nat` seconds since
  the epoch; `iso`/`parse_iso` round-trip, and ISO-8601 UTC strings compare in
  the same order as the instants they encode, so comparisons are on `Nat`;
* Python dicts that the code iterates in insertion order (`tallies`,
  `submissions`, `answers`, `overall_user_noms`) are insertion-ordered
  association lists;
* dynamically typed answer values (an id, a list of ids, a choice string or
  free text, with `str(...)` applied when used as a tally key) are the
  two-constructor type `Ans`;
* channel sends / interaction replies are returned as explicit emission lists;
  each `self.save_data()` call of an operation is recorded as one entry of an
  explicit write trace (the document snapshot persisted by that call).
-/

namespace Awards

/-- Env default `DEFAULT_TOP_N` (the string "3"). -/
def DEFAULT_TOP_N : Nat := 3

/-- Env default `DEFAULT_SUBMISSION_DAYS` (the string "7"). -/
def DEFAULT_SUBMISSION_DAYS : Nat := 7

/-- Question `type` field: `"user_select" | "multi_choice" | "short_text"`. -/
inductive QType
  | user_select
  | multi_choice
  | short_text
deriving DecidableEq

/-- Run `status` field: `setup_suggestions -> open -> locked ->
reveal_in_progress`; an archived run is no longer stored in `active`.
(`open` is a Lean keyword, hence `open_`.) -/
inductive Status
  | setup_suggestions
  | open_
  | locked
  | reveal_in_progress
deriving DecidableEq

/-- An answer value: either a scalar (user id / choice string / free text,
kept in its `str(...)` form) or a list of member ids. -/
inductive Ans
  | single (s : String)
  | multi (ids : List String)
deriving DecidableEq

/-- Python `str(ans)` as used on tally keys: scalars are already strings, a
list renders as `[a, b, ...]`. -/
def ansStr : Ans → String
  | .single s => s
  | .multi l => "[" ++ String.intercalate ", " l ++ "]"

/-- One entry of `run["suggestions"]`; `state` is `"pending" | "approved" |
"rejected"` (kept stringly, as in the JSON). -/
structure Suggestion where
  id : String
  text : String
  suggested_by : Nat
  at_ : Nat
  state : String
deriving DecidableEq

/-- One entry of `run["questions"]` (`type` is a Lean keyword, hence `qtype`). -/
structure Question where
  id : String
  text : String
  qtype : QType
  max : Nat
  required : Bool
  choices : List String
  enabled : Bool
  order : Nat
deriving DecidableEq

/-- One value of `run["submissions"]`: `answers` is the insertion-ordered dict
`qid -> answer`. -/
structure Submission where
  answers : List (String × Ans)
  submitted_at : Option Nat
  last_updated_at : Nat
deriving DecidableEq

/-- The `closest` record of a per-question result. -/
structure Closest where
  first : Nat
  second : Nat
  gap : Int
deriving DecidableEq

/-- One entry of a per-question `top` list.  `pct` is the 2-decimal
percentage stored exactly, in hundredths of a percent (66.67% is 6667); the
theorems relate it to `round((count / total) * 100, 2)` on rationals. -/
structure TopEntry where
  key : String
  count : Nat
  pct : Nat
deriving DecidableEq

/-- One entry of `computed_results["per_question"]`. -/
structure QResult where
  qid : String
  text : String
  qtype : QType
  total_votes : Nat
  unique_nominees : Nat
  closest : Option Closest
  landslide : Bool
  top : List TopEntry
deriving DecidableEq

/-- The `chaos` aggregate of computed results. -/
structure Chaos where
  closest_race : Option QResult
  most_chaotic : Option QResult
  most_nominated_user : Option String
deriving DecidableEq

/-- The value of `run["reveal"]["computed_results"]`. -/
structure Results where
  computed_at : Nat
  submissions : Nat
  per_question : List QResult
  chaos : Chaos
deriving DecidableEq

/-- The `run["reveal"]` record; `mode` is `"all" | "step"`. -/
structure Reveal where
  mode : Option String
  started_at : Option Nat
  current_index : Nat
  computed_results : Option Results
deriving DecidableEq

/-- The `run["channels"]` record; unset channels default to `announcement`
at their use sites. -/
structure Channels where
  announcement : Nat
  suggestions : Option Nat
  results : Option Nat
  modlog : Option Nat
deriving DecidableEq

/-- The `run["public_messages"]` record. -/
structure PublicMessages where
  suggestions_message_id : Option Nat
  submissions_message_id : Option Nat
  chaos_message_id : Option Nat
deriving DecidableEq

/-- An active run object (`data["active"]` when not null). -/
structure Run where
  id : String
  guild_id : Nat
  name : String
  created_by : Nat
  created_at : Nat
  status : Status
  channels : Channels
  public_messages : PublicMessages
  deadline : Option Nat
  suggestions : List Suggestion
  questions : List Question
  submissions : List (String × Submission)
  reveal : Reveal
deriving DecidableEq

/-- The `data["settings"]` record. -/
structure Settings where
  allowed_role_ids : List Nat
deriving DecidableEq

/-- The stripped question snapshot kept inside an archive entry. -/
structure ArchQuestion where
  id : String
  text : String
  qtype : QType
deriving DecidableEq

/-- One entry of `data["archive"]`. -/
structure ArchiveEntry where
  id : String
  guild_id : Nat
  name : String
  created_at : Nat
  ended_at : Nat
  questions : List ArchQuestion
  results : Option Results
deriving DecidableEq

/-- The root persisted JSON document. -/
structure Document where
  version : Nat
  settings : Settings
  active : Option Run
  archive : List ArchiveEntry
deriving DecidableEq

/-- `default_data()`. -/
def default_data : Document :=
  { version := 1
    settings := { allowed_role_ids := [] }
    active := none
    archive := [] }

/-- `AwardsBot.run_by_id`: the active run when its id matches, else `None`. -/
def run_by_id (doc : Document) (run_id : String) : Option Run :=
  match doc.active with
  | some run => if run.id = run_id then some run else none
  | none => none

/-- `clamp(n, lo, hi)` on integers. -/
def clampI (n lo hi : Int) : Int :=
  max lo (min hi n)

/-- `trim(s, n)`: strip, then truncate to `n` with a trailing ellipsis. -/
def pyTrim (s : String) (n : Nat) : String :=
  let s := s.trim
  if s.length ≤ n then s else s.take (n - 1) ++ "…"

/-! ## Document store (`GitHubJSONStore` + `AwardsBot.save_data`)

`GitHubJSONStore.save` performs a SHA-conditional whole-document PUT and
raises `RemoteStoreError("409_CONFLICT")` when the supplied SHA is stale.
`AwardsBot.save_data` wraps it in a retry loop of 6 attempts: on conflict it
reloads the latest remote document (`None` models a missing/empty remote
object, replaced by `default_data()`), overwrites its three owned top-level
fields `settings`, `active` and `archive` with the in-memory values, adopts
that merged document as `self.data` and retries.  A save attempt is
conflicted exactly when another writer committed since our last load, so a
run of `save_data` is driven by the list of remote documents committed by
other writers before each of our attempts; when that list is exhausted the
next attempt succeeds and the merged in-memory document becomes the stored
document. -/

/-- The conflict merge of `save_data`: the caller's three owned top-level
fields win; everything else comes from the freshly loaded document. -/
def mergeOwnedFields (mem latest : Document) : Document :=
  { latest with
      settings := mem.settings
      active := mem.active
      archive := mem.archive }

/-- The retry loop body of `save_data`, with explicit remaining-attempt fuel
(the source uses `for _ in range(6)`).  `conflicts` lists, per conflicted
attempt, the remote document another writer committed (`none` = remote object
missing, replaced by `default_data()`).  Returns the document that the
successful PUT stored, or the terminal error. -/
def save_data_go : Nat → Document → List (Option Document) → Except String Document
  | 0, _, _ => .error "Could not save after repeated conflicts."
  | _ + 1, mem, [] => .ok mem
  | n + 1, mem, c :: cs => save_data_go n (mergeOwnedFields mem (c.getD default_data)) cs

/-- `AwardsBot.save_data`: 6 bounded attempts. -/
def save_data (mem : Document) (conflicts : List (Option Document)) : Except String Document :=
  save_data_go 6 mem conflicts

/-- A sequence of `save_data` calls against a remote store: each successful
call replaces the stored document with its result; a failed call leaves the
store unchanged (conflicted attempts never write). -/
def runSaves (remote : Document) : List (Document × List (Option Document)) → Document
  | [] => remote
  | (mem, cs) :: rest =>
    match save_data mem cs with
    | .ok d => runSaves d rest
    | .error _ => runSaves remote rest

/-! ## Tally engine (`AwardsBot.compute_results`)

Faithful embedding of the single pass over questions and submissions.
`round(x, 2)` is modelled as exact rational rounding to 2 decimals
(`⌊x * 100 + 1/2⌋ / 100`); Python's float `round` agrees except on exact
`.005` ties (where it rounds half to even), which no claim exercises, and
`0.6` stands for the literal `0.6` in the landslide comparison. -/

/-- Increment of the insertion-ordered dict `tallies[k] = tallies.get(k, 0) + 1`:
bump the existing entry in place, or append a fresh one. -/
def bump (k : String) : List (String × Nat) → List (String × Nat)
  | [] => [(k, 1)]
  | (k', n) :: t => if k' = k then (k', n + 1) :: t else (k', n) :: bump k t

/-- Total count recorded for key `k` in an association list (for the
insertion-ordered dicts built by `bump`, whose keys are unique, this is the
stored value, or 0 when absent). -/
def countOf (k : String) : List (String × Nat) → Nat
  | [] => 0
  | (k', n) :: t => if k' = k then n + countOf k t else countOf k t

/-- Accumulator of the per-question tally loop: the question's `tallies`
dict, the cross-question `overall_user_noms` dict and the question's `total`. -/
structure TallySt where
  tallies : List (String × Nat)
  overall : List (String × Nat)
  total : Nat

/-- `sub.get("answers", {}).get(qid)`. -/
def lookupAnswer (sub : Submission) (qid : String) : Option Ans :=
  (sub.answers.find? (fun p => p.1 = qid)).map (·.2)

/-- The body of the tally loop for one present answer, by question type:
`user_select` fans a list out to one count per listed member (also feeding
`overall_user_noms`), a scalar counts once for that member; `multi_choice`
counts once for `str(ans)`; `short_text` only counts participation. -/
def tallyAnswer (qt : QType) (st : TallySt) (ans : Ans) : TallySt :=
  match qt, ans with
  | .user_select, .multi l =>
    l.foldl (fun s u => ⟨bump u s.tallies, bump u s.overall, s.total + 1⟩) st
  | .user_select, .single k => ⟨bump k st.tallies, bump k st.overall, st.total + 1⟩
  | .multi_choice, a => ⟨bump (ansStr a) st.tallies, st.overall, st.total + 1⟩
  | .short_text, _ => ⟨st.tallies, st.overall, st.total + 1⟩

/-- The tally loop over all submissions for one question, skipping missing
answers; `overall0` threads `overall_user_noms` across questions. -/
def tallySubs (q : Question) (overall0 : List (String × Nat))
    (subs : List (String × Submission)) : TallySt :=
  subs.foldl
    (fun st p =>
      match lookupAnswer p.2 q.id with
      | none => st
      | some a => tallyAnswer q.qtype st a)
    ⟨[], overall0, 0⟩

/-- Stable descending insertion: a new pair goes after every earlier pair of
greater-or-equal count, as in Python's stable `sorted(..., reverse=True)`. -/
def insertDesc (p : String × Nat) : List (String × Nat) → List (String × Nat)
  | [] => [p]
  | x :: xs => if p.2 ≤ x.2 then x :: insertDesc p xs else p :: x :: xs

/-- `sorted(tallies.items(), key=lambda x: x[1], reverse=True)`. -/
def rankDesc (l : List (String × Nat)) : List (String × Nat) :=
  l.foldl (fun acc p => insertDesc p acc) []

/-- `round(x, 2)` on exact rationals: the specification-side formula that the
integer percentage computation is proved to satisfy. -/
def round2 (x : ℚ) : ℚ :=
  ((⌊x * 100 + 1 / 2⌋ : ℤ) : ℚ) / 100

/-- `round((v / total) * 100, 2)` computed exactly in hundredths of a
percent: rounding `v * 10000 / total` half-up is the integer quotient
`(2 * v * 10000 + total) / (2 * total)`.  (Python rounds the float half to
even; the two agree except on exact `.005` ties, which no claim exercises.) -/
def pct2 (v total : Nat) : Nat :=
  (20000 * v + total) / (2 * total)

/-- Per-question part of `compute_results`: tally, rank, keep the top
`DEFAULT_TOP_N` with 2-decimal percentages, the closest (first, second, gap)
record when at least two keys exist, and the `top1/total >= 0.6` landslide
flag (`0.6 <= top1 / total` iff `3 * total <= 5 * top1` for `total ≠ 0`;
see `landslide_iff_ratio`).  Also returns the updated `overall_user_noms`. -/
def questionResult (q : Question) (overall0 : List (String × Nat))
    (subs : List (String × Submission)) : QResult × List (String × Nat) :=
  let st := tallySubs q overall0 subs
  let ranked := rankDesc st.tallies
  let top : List TopEntry :=
    if st.total ≠ 0 ∧ ranked ≠ [] then
      (ranked.take DEFAULT_TOP_N).map (fun p => ⟨p.1, p.2, pct2 p.2 st.total⟩)
    else []
  let closest : Option Closest :=
    match ranked with
    | a :: b :: _ => some ⟨a.2, b.2, (a.2 : Int) - (b.2 : Int)⟩
    | _ => none
  let landslide : Bool :=
    match ranked with
    | a :: _ => st.total ≠ 0 && 3 * st.total ≤ 5 * a.2
    | [] => false
  (⟨q.id, q.text, q.qtype, st.total, ranked.length, closest, landslide, top⟩, st.overall)

/-- Stable ascending insertion by `order`, as in Python's stable
`sorted(..., key=lambda x: x.get("order", 0))`. -/
def insertByOrder (q : Question) : List Question → List Question
  | [] => [q]
  | x :: xs => if x.order ≤ q.order then x :: insertByOrder q xs else q :: x :: xs

/-- `sorted(run.get("questions", []), key=lambda x: x.get("order", 0))`. -/
def sortByOrder (l : List Question) : List Question :=
  l.foldl (fun acc q => insertByOrder q acc) []

/-- The `gap` of a per-question result's `closest` record (0 when absent; only
used on results whose `closest` is present). -/
def gapOf (p : QResult) : Int :=
  match p.closest with
  | some c => c.gap
  | none => 0

/-- `min((p for p in per_question if p["closest"]), key=..gap.., default=None)`:
first minimum by gap among results that have a `closest` record. -/
def minByGap (l : List QResult) : Option QResult :=
  (l.filter (fun p => p.closest.isSome)).foldl
    (fun best p =>
      match best with
      | none => some p
      | some b => if gapOf p < gapOf b then some p else some b)
    none

/-- `max(per_question, key=..unique_nominees..)`: first maximum. -/
def maxByUnique (l : List QResult) : Option QResult :=
  l.foldl
    (fun best p =>
      match best with
      | none => some p
      | some b => if b.unique_nominees < p.unique_nominees then some p else some b)
    none

/-- `max(overall_user_noms, key=..count.., default=None)`: first key of
maximal count, in dict insertion order. -/
def maxCountKey (l : List (String × Nat)) : Option String :=
  (l.foldl
    (fun best p =>
      match best with
      | none => some p
      | some b => if b.2 < p.2 then some p else some b)
    none).map (·.1)

/-- The question loop of `compute_results`: accumulate the per-question
results in order while threading `overall_user_noms`. -/
def resultsFold (subs : List (String × Submission))
    (acc : List QResult × List (String × Nat)) :
    List Question → List QResult × List (String × Nat)
  | [] => acc
  | q :: qs =>
    let pr := questionResult q acc.2 subs
    resultsFold subs (acc.1 ++ [pr.1], pr.2) qs

/-- `AwardsBot.compute_results`, at wall-clock second `t`. -/
def compute_results (t : Nat) (run : Run) : Results :=
  let pr := resultsFold run.submissions ([], []) (sortByOrder run.questions)
  { computed_at := t
    submissions := run.submissions.length
    per_question := pr.1
    chaos :=
      { closest_race := minByGap pr.1
        most_chaotic := maxByUnique pr.1
        most_nominated_user := maxCountKey pr.2 } }

/-- Specification-side contribution of one present answer to one tally key,
following the spec's words (§4.3): "for `member_pick` questions a list-valued
answer contributes one count to each listed member (fan-out, not divided),
single-valued answers contribute one count to that member; for
`multiple_choice`, one count to the chosen option; for `short_text`, no
ranking".  Used only to state the refinement half of the tally claim. -/
def contribA (qt : QType) (a : Ans) (k : String) : Nat :=
  match qt, a with
  | .user_select, .multi l => l.count k
  | .user_select, .single s => if s = k then 1 else 0
  | .multi_choice, a => if ansStr a = k then 1 else 0
  | .short_text, _ => 0

/-- Specification-side contribution count of one submission to one key:
submissions with no answer for the question are skipped, present answers
contribute per `contribA`. -/
def specContrib (q : Question) (k : String) (sub : Submission) : Nat :=
  match lookupAnswer sub q.id with
  | none => 0
  | some a => contribA q.qtype a k

/-! ## Lifecycle operations

Each operation models one handler method: guard checks first (each refusal
branch replies and returns without mutating or saving), then the mutation and
its `save_data` call(s).  Outcome inductives name the code's reply branches. -/

/-- Outcomes of `open_submissions`: "No active run." / "Submissions can't be
opened right now." / "Add at least 1 question first." / success. -/
inductive OpenOutcome
  | no_run
  | wrong_status
  | no_questions
  | opened
deriving DecidableEq

/-- `AwardsBot.open_submissions` at second `t`; `msg_id` is the id of the
announcement message the platform returns for the success path. -/
def open_submissions (t msg_id : Nat) (run_id : String) (doc : Document) :
    OpenOutcome × Document :=
  match run_by_id doc run_id with
  | none => (.no_run, doc)
  | some run =>
    if run.status ≠ .setup_suggestions then (.wrong_status, doc)
    else if run.questions.length = 0 then (.no_questions, doc)
    else
      let run1 :=
        if run.deadline = none then
          { run with deadline := some (t + DEFAULT_SUBMISSION_DAYS * 86400) }
        else run
      let run2 := { run1 with status := .open_ }
      let run3 :=
        { run2 with
            public_messages :=
              { run2.public_messages with submissions_message_id := some msg_id } }
      (.opened, { doc with active := some run3 })

/-- The channel keys offered by `ChannelsView` / `pick_channel` (the
`announcement` channel is fixed at run creation and has no mutator). -/
inductive ChannelKey
  | suggestions
  | results
  | modlog
deriving DecidableEq

/-- `run["channels"][key] = channel_id`. -/
def setChannelField (ch : Channels) (key : ChannelKey) (cid : Option Nat) : Channels :=
  match key with
  | .suggestions => { ch with suggestions := cid }
  | .results => { ch with results := cid }
  | .modlog => { ch with modlog := cid }

/-- Outcomes of `set_channel`: "No active run." / "You can't change channels
during reveal." / success. -/
inductive SetChannelOutcome
  | no_run
  | reveal_locked
  | ok
deriving DecidableEq

/-- `AwardsBot.set_channel`: refused only while `reveal_in_progress`;
otherwise the assignment is applied and saved in any status. -/
def set_channel (run_id : String) (key : ChannelKey) (cid : Option Nat)
    (doc : Document) : SetChannelOutcome × Document :=
  match run_by_id doc run_id with
  | none => (.no_run, doc)
  | some run =>
    if run.status = .reveal_in_progress then (.reveal_locked, doc)
    else
      (.ok, { doc with active := some { run with channels := setChannelField run.channels key cid } })

/-- Dict update `answers[qid] = value`: replace in place or append. -/
def setAnswer (qid : String) (v : Ans) : List (String × Ans) → List (String × Ans)
  | [] => [(qid, v)]
  | (k, a) :: t => if k = qid then (k, v) :: t else (k, a) :: setAnswer qid v t

/-- Dict update `submissions[uid] = sub`: replace in place or append. -/
def setSubmission (uid : String) (s : Submission) :
    List (String × Submission) → List (String × Submission)
  | [] => [(uid, s)]
  | (k, x) :: t => if k = uid then (k, s) :: t else (k, x) :: setSubmission uid s t

/-- The mutation body of `save_answer`: `setdefault` the user's submission,
store the answer under `qid` and stamp `last_updated_at`. -/
def applyAnswer (t : Nat) (run : Run) (user_id : Nat) (qid : String) (v : Ans)
    (doc : Document) : Document :=
  let key := toString user_id
  let sub :=
    match run.submissions.find? (fun p => p.1 = key) with
    | some p => p.2
    | none => ⟨[], none, t⟩
  let sub1 := { sub with answers := setAnswer qid v sub.answers, last_updated_at := t }
  { doc with active := some { run with submissions := setSubmission key sub1 run.submissions } }

/-- `AwardsBot.save_answer` at second `t`.  The second component is the list
of interaction replies sent by `save_answer` itself: it never sends any — the
missing-run and past-deadline branches are bare `return`s, and the success
branch only saves.  (Its UI callers send a confirmation afterwards,
unconditionally; see `short_text_modal_submit`.) -/
def save_answer (t : Nat) (run_id : String) (user_id : Nat) (qid : String)
    (v : Ans) (doc : Document) : Document × List String :=
  match run_by_id doc run_id with
  | none => (doc, [])
  | some run =>
    match run.deadline with
    | some dl =>
      if dl < t then (doc, [])
      else (applyAnswer t run user_id qid v doc, [])
    | none => (applyAnswer t run user_id qid v doc, [])

/-- `ShortTextAnswerModal.on_submit`: `save_answer` followed by an
unconditional "✅ Saved." ephemeral reply. -/
def short_text_modal_submit (t : Nat) (run_id : String) (user_id : Nat)
    (qid : String) (v : Ans) (doc : Document) : Document × List String :=
  let r := save_answer t run_id user_id qid v doc
  (r.1, r.2 ++ ["✅ Saved."])

/-- The archive snapshot written by `end_run_no_reveal` (`results = None`). -/
def archiveEntryNoResults (t : Nat) (run : Run) : ArchiveEntry :=
  { id := run.id
    guild_id := run.guild_id
    name := run.name
    created_at := run.created_at
    ended_at := t
    questions := run.questions.map (fun q => ⟨q.id, q.text, q.qtype⟩)
    results := none }

/-- Outcomes of `end_run_no_reveal`: "No active run." / archived. -/
inductive EndOutcome
  | no_run
  | ended
deriving DecidableEq

/-- `AwardsBot.end_run_no_reveal` at second `t`.  Note the source checks only
that an active run with this id exists — there is no status guard.  The third
component is the write trace: the single document snapshot persisted by its
one `save_data` call. -/
def end_run_no_reveal (t : Nat) (run_id : String) (doc : Document) :
    EndOutcome × Document × List Document :=
  match run_by_id doc run_id with
  | none => (.no_run, doc, [])
  | some run =>
    let d := { doc with archive := doc.archive ++ [archiveEntryNoResults t run], active := none }
    (.ended, d, [d])

/-- The archive snapshot written after a reveal: frozen computed results. -/
def archiveEntryOf (t : Nat) (run : Run) : ArchiveEntry :=
  { id := run.id
    guild_id := run.guild_id
    name := run.name
    created_at := run.created_at
    ended_at := t
    questions := run.questions.map (fun q => ⟨q.id, q.text, q.qtype⟩)
    results := run.reveal.computed_results }

/-- `AwardsBot.archive_and_clear_active` at second `t`: append the entry and
clear `active` in the in-memory document, then persist once.  Returns the new
document and the write trace of its single `save_data` call. -/
def archive_and_clear_active (t : Nat) (run : Run) (doc : Document) :
    Document × List Document :=
  let d := { doc with archive := doc.archive ++ [archiveEntryOf t run], active := none }
  (d, [d])

/-- Outcomes of `reveal_next`: "No reveal in progress." / missing computed
results (unreachable in code; Python would raise a `TypeError` subscripting
`None`) / "All awards revealed." / one more revealed / last one revealed and
archived. -/
inductive RevealOutcome
  | not_in_progress
  | results_missing
  | all_revealed
  | revealed
  | revealed_and_archived
deriving DecidableEq

/-- `AwardsBot.reveal_next` at second `t`; `chaos_msg_id` is the platform id
of the chaos-stats button message posted on the final step.  Returns the
outcome, the final document, the result blocks emitted to the results channel
(rendering by `format_result_block` is presentation and is not modelled), and
the write trace: one snapshot per `save_data` call, in order (the index
increment; then, on the final step, `post_chaos_button`'s save and
`archive_and_clear_active`'s save). -/
def reveal_next (t chaos_msg_id : Nat) (run_id : String) (doc : Document) :
    RevealOutcome × Document × List QResult × List Document :=
  match run_by_id doc run_id with
  | none => (.not_in_progress, doc, [], [])
  | some run =>
    if run.status ≠ .reveal_in_progress then (.not_in_progress, doc, [], [])
    else
      match run.reveal.computed_results with
      | none => (.results_missing, doc, [], [])
      | some res =>
        let results := res.per_question
        let idx := run.reveal.current_index
        if h : idx < results.length then
          let emitted := results.get ⟨idx, h⟩
          let run1 := { run with reveal := { run.reveal with current_index := idx + 1 } }
          let d1 := { doc with active := some run1 }
          if results.length ≤ idx + 1 then
            let run2 :=
              { run1 with
                  public_messages :=
                    { run1.public_messages with chaos_message_id := some chaos_msg_id } }
            let d2 := { d1 with active := some run2 }
            let fin := archive_and_clear_active t run2 d2
            (.revealed_and_archived, fin.1, [emitted], [d1, d2] ++ fin.2)
          else (.revealed, d1, [emitted], [d1])
        else (.all_revealed, doc, [], [])

/-- Python's simultaneous swap `qs[i], qs[j] = qs[j], qs[i]`. -/
def swapL (l : List Question) (i j : Nat) : List Question :=
  match l.get? i, l.get? j with
  | some a, some b => (l.set i b).set j a
  | _, _ => l

/-- The re-densifying pass `for i, q in enumerate(qs): q["order"] = i`. -/
def assignOrders : Nat → List Question → List Question
  | _, [] => []
  | i, q :: qs => { q with order := i } :: assignOrders (i + 1) qs

/-- Outcomes of the question mutations: refusal ("can't reorder/remove after
submissions open", covering both a missing run and a non-setup status) /
"Not found." / success. -/
inductive MutOutcome
  | refused
  | not_found
  | ok
deriving DecidableEq

/-- `AwardsBot.move_question`: swap the question at its sorted position with
the clamped neighbour, then re-densify `order`. -/
def move_question (run_id qid : String) (delta : Int) (doc : Document) :
    MutOutcome × Document :=
  match run_by_id doc run_id with
  | none => (.refused, doc)
  | some run =>
    if run.status ≠ .setup_suggestions then (.refused, doc)
    else
      let qs := sortByOrder run.questions
      match qs.findIdx? (fun q => q.id = qid) with
      | none => (.not_found, doc)
      | some idx =>
        let new_idx := (clampI ((idx : Int) + delta) 0 ((qs.length : Int) - 1)).toNat
        let qs2 := assignOrders 0 (swapL qs idx new_idx)
        (.ok, { doc with active := some { run with questions := qs2 } })

/-- `AwardsBot.remove_question`: drop the question, sort the rest by `order`,
re-densify.  (The source replies "Removed question." even when `qid` did not
occur.) -/
def remove_question (run_id qid : String) (doc : Document) :
    MutOutcome × Document :=
  match run_by_id doc run_id with
  | none => (.refused, doc)
  | some run =>
    if run.status ≠ .setup_suggestions then (.refused, doc)
    else
      let kept := run.questions.filter (fun q => q.id ≠ qid)
      let qs2 := assignOrders 0 (sortByOrder kept)
      (.ok, { doc with active := some { run with questions := qs2 } })

/-- `AwardsBot._next_qid` at wall-clock second `t`:
`f"q_{int(now_utc().timestamp())}"`. -/
def next_qid (t : Nat) : String :=
  "q_" ++ toString t

/-- Outcomes of question creation: "Questions are locked once submissions
open." (also covering a missing run) / success. -/
inductive CreateOutcome
  | refused
  | ok
deriving DecidableEq

/-- `AwardsBot.create_question_short_text` at second `t`. -/
def create_question_short_text (t : Nat) (run_id qtext : String) (doc : Document) :
    CreateOutcome × Document :=
  match run_by_id doc run_id with
  | none => (.refused, doc)
  | some run =>
    if run.status ≠ .setup_suggestions then (.refused, doc)
    else
      let q : Question :=
        { id := next_qid t
          text := pyTrim qtext 140
          qtype := .short_text
          max := 1
          required := true
          choices := []
          enabled := true
          order := run.questions.length }
      (.ok, { doc with active := some { run with questions := run.questions ++ [q] } })

/-! ## Concrete fixtures

Small documents used by the scenario claims, counterexamples and witnesses. -/

/-- A freshly created run in `setup_suggestions` (as built by `new_run`). -/
def baseRun : Run :=
  { id := "r1"
    guild_id := 1
    name := "Awards"
    created_by := 5
    created_at := 0
    status := .setup_suggestions
    channels := ⟨100, none, none, none⟩
    public_messages := ⟨none, none, none⟩
    deadline := none
    suggestions := []
    questions := []
    submissions := []
    reveal := ⟨none, none, 0, none⟩ }

/-- A document whose active run is `baseRun` (setup, zero questions). -/
def setupDoc : Document :=
  { version := 1, settings := ⟨[]⟩, active := some baseRun, archive := [] }

/-- The member-pick question of the tally scenario (`max = 1`). -/
def scenQ : Question :=
  { id := "q1", text := "Q1", qtype := .user_select, max := 1, required := true
    choices := [], enabled := true, order := 0 }

/-- A submission answering `q1` with the single member `m`. -/
def scenSub (m : String) : Submission :=
  { answers := [("q1", .single m)], submitted_at := some 40, last_updated_at := 40 }

/-- The tally scenario run: question `q1` with answers A, A, B. -/
def scenarioRun : Run :=
  { baseRun with
      status := .locked
      questions := [scenQ]
      submissions := [("11", scenSub "A"), ("12", scenSub "A"), ("13", scenSub "B")] }

/-- The per-question result the tally scenario should produce. -/
def scenarioQResult : QResult :=
  { qid := "q1", text := "Q1", qtype := .user_select, total_votes := 3
    unique_nominees := 2
    closest := some ⟨2, 1, 1⟩
    landslide := true
    top := [⟨"A", 2, 6667⟩, ⟨"B", 1, 3333⟩] }

/-- A run mid step-reveal: one question, frozen results, nothing revealed yet. -/
def revealingRun : Run :=
  { scenarioRun with
      status := .reveal_in_progress
      reveal :=
        { mode := some "step"
          started_at := some 50
          current_index := 0
          computed_results := some (compute_results 50 scenarioRun) } }

/-- A document whose active run is `revealingRun`. -/
def revealingDoc : Document :=
  { version := 1, settings := ⟨[]⟩, active := some revealingRun, archive := [] }

/-- A run with open submissions and a deadline of second 100. -/
def openRun : Run :=
  { baseRun with
      status := .open_
      questions := [scenQ]
      deadline := some 100 }

/-- A document whose active run is `openRun`. -/
def openDoc : Document :=
  { version := 1, settings := ⟨[]⟩, active := some openRun, archive := [] }

/-- A three-question setup run with dense orders 0, 1, 2. -/
def threeQRun : Run :=
  { baseRun with
      questions :=
        [{ scenQ with id := "qa", text := "QA", order := 0 }
         , { scenQ with id := "qb", text := "QB", order := 1 }
         , { scenQ with id := "qc", text := "QC", order := 2 }] }

/-- A document whose active run is `threeQRun`. -/
def threeQDoc : Document :=
  { version := 1, settings := ⟨[]⟩, active := some threeQRun, archive := [] }

/-! ## Claim C1: conflict-safe `save_data` -/

theorem mergeOwnedFields_fields (mem latest : Document) :
    (mergeOwnedFields mem latest).settings = mem.settings ∧
      (mergeOwnedFields mem latest).active = mem.active ∧
      (mergeOwnedFields mem latest).archive = mem.archive := by
  simp [mergeOwnedFields]

theorem save_data_go_ok (n : Nat) (cs : List (Option Document)) (mem : Document)
    (h : cs.length < n) :
    ∃ d, save_data_go n mem cs = .ok d ∧ d.settings = mem.settings ∧
      d.active = mem.active ∧ d.archive = mem.archive := by
  induction n generalizing cs mem with
  | zero => omega
  | succ n ih =>
    cases cs with
    | nil => exact ⟨mem, rfl, rfl, rfl, rfl⟩
    | cons c cs =>
      have hlen : cs.length < n := by simpa using Nat.lt_of_succ_lt_succ h
      obtain ⟨d, hd, h1, h2, h3⟩ := ih cs (mergeOwnedFields mem (c.getD default_data)) hlen
      obtain ⟨m1, m2, m3⟩ := mergeOwnedFields_fields mem (c.getD default_data)
      exact ⟨d, hd, h1.trans m1, h2.trans m2, h3.trans m3⟩

theorem save_data_go_error (n : Nat) (cs : List (Option Document)) (mem : Document)
    (h : n ≤ cs.length) :
    save_data_go n mem cs = .error "Could not save after repeated conflicts." := by
  induction n generalizing cs mem with
  | zero => rfl
  | succ n ih =>
    cases cs with
    | nil => simp at h
    | cons c cs =>
      have hlen : n ≤ cs.length := Nat.le_of_succ_le_succ (by simpa using h)
      exact ih cs (mergeOwnedFields mem (c.getD default_data)) hlen

theorem runSaves_last (calls : List (Document × List (Option Document)))
    (remote mem : Document) (cs : List (Option Document)) (h : cs.length ≤ 5) :
    (runSaves remote (calls ++ [(mem, cs)])).settings = mem.settings ∧
      (runSaves remote (calls ++ [(mem, cs)])).active = mem.active ∧
      (runSaves remote (calls ++ [(mem, cs)])).archive = mem.archive := by
  induction calls generalizing remote with
  | nil =>
    obtain ⟨d, hd, h1, h2, h3⟩ := save_data_go_ok 6 cs mem (by omega)
    simp only [List.nil_append, runSaves, save_data, hd]
    exact ⟨h1, h2, h3⟩
  | cons c calls ih =>
    obtain ⟨m, cs'⟩ := c
    simp only [List.cons_append, runSaves]
    cases save_data m cs' with
    | ok d => exact ih d
    | error e => exact ih remote

/-- C1: on a version conflict, `save_data` re-fetches the latest remote
document, overwrites its three top-level fields `settings`, `active` and
`archive` with the in-memory caller's values and retries the write, bounded
to 6 attempts (≥ 5): for any conflict schedule shorter than 6, the write
eventually succeeds and the stored document carries exactly the caller's
three owned fields; only when every one of the 6 attempts conflicts is the
fatal store error raised; and across any sequence of `save_data` calls with
interleaved conflicts, the final stored document reflects the last caller's
intended top-level fields. -/
theorem save_data_conflict_retry :
    (∀ (mem : Document) (cs : List (Option Document)), cs.length ≤ 5 →
      ∃ d, save_data mem cs = .ok d ∧ d.settings = mem.settings ∧
        d.active = mem.active ∧ d.archive = mem.archive) ∧
    (∀ (mem : Document) (cs : List (Option Document)), 6 ≤ cs.length →
      save_data mem cs = .error "Could not save after repeated conflicts.") ∧
    (∀ (calls : List (Document × List (Option Document))) (remote mem : Document)
        (cs : List (Option Document)), cs.length ≤ 5 →
      (runSaves remote (calls ++ [(mem, cs)])).settings = mem.settings ∧
        (runSaves remote (calls ++ [(mem, cs)])).active = mem.active ∧
        (runSaves remote (calls ++ [(mem, cs)])).archive = mem.archive) :=
  ⟨fun mem cs h => save_data_go_ok 6 cs mem (by omega),
   fun mem cs h => save_data_go_error 6 cs mem h,
   fun calls remote mem cs h => runSaves_last calls remote mem cs h⟩

/-- Witness for C1 at concrete inputs: one interleaved conflict succeeds with
the caller's fields; six straight conflicts surface the fatal error. -/
theorem save_data_conflict_retry_witness :
    (([some setupDoc] : List (Option Document)).length ≤ 5 ∧
      ∃ d, save_data default_data [some setupDoc] = .ok d ∧
        d.settings = default_data.settings ∧ d.active = default_data.active ∧
        d.archive = default_data.archive) ∧
    (6 ≤ (List.replicate 6 (none : Option Document)).length ∧
      save_data default_data (List.replicate 6 none) =
        .error "Could not save after repeated conflicts.") :=
  ⟨⟨by decide, save_data_conflict_retry.1 default_data [some setupDoc] (by decide)⟩,
   ⟨by decide, save_data_conflict_retry.2.1 default_data (List.replicate 6 none) (by decide)⟩⟩

/-! ## Claim C2: the tally engine -/

theorem countOf_bump (k k' : String) (l : List (String × Nat)) :
    countOf k (bump k' l) = countOf k l + (if k' = k then 1 else 0) := by
  induction l with
  | nil => by_cases h : k' = k <;> simp [bump, countOf, h]
  | cons p t ih =>
    obtain ⟨a, n⟩ := p
    by_cases h1 : a = k'
    · by_cases h2 : a = k
      · have hk : k' = k := h1.symm.trans h2
        simp only [bump, countOf, if_pos h1, if_pos h2, if_pos hk]
        omega
      · have hk : ¬k' = k := fun hh => h2 (h1.trans hh)
        simp [bump, countOf, h1, h2, hk]
    · by_cases h2 : a = k
      · simp only [bump, countOf, if_neg h1, if_pos h2, ih]
        omega
      · simp [bump, countOf, h1, h2, ih]

theorem countOf_foldl_bump (k : String) (l : List String) (st : TallySt) :
    countOf k
        ((l.foldl (fun s u => ⟨bump u s.tallies, bump u s.overall, s.total + 1⟩) st).tallies) =
      countOf k st.tallies + l.count k := by
  induction l generalizing st with
  | nil => simp
  | cons u l ih =>
    simp only [List.foldl_cons, ih, countOf_bump]
    by_cases h : u = k <;> simp [List.count_cons, h] <;> omega

theorem countOf_tallyAnswer (qt : QType) (a : Ans) (k : String) (st : TallySt) :
    countOf k (tallyAnswer qt st a).tallies = countOf k st.tallies + contribA qt a k := by
  cases qt <;> cases a <;>
    simp [tallyAnswer, contribA, countOf_bump, countOf_foldl_bump]

theorem countOf_tallySubs_go (q : Question) (k : String)
    (subs : List (String × Submission)) (st : TallySt) :
    countOf k
        ((subs.foldl
          (fun st p =>
            match lookupAnswer p.2 q.id with
            | none => st
            | some a => tallyAnswer q.qtype st a) st).tallies) =
      countOf k st.tallies + (subs.map (fun p => specContrib q k p.2)).sum := by
  induction subs generalizing st with
  | nil => simp
  | cons p subs ih =>
    simp only [List.foldl_cons, List.map_cons, List.sum_cons]
    cases hl : lookupAnswer p.2 q.id with
    | none => rw [ih]; simp [specContrib, hl]
    | some a => rw [ih, countOf_tallyAnswer]; simp [specContrib, hl]; omega

/-- The tally of a question is exactly the specification-side count: for each
key, the recorded count is the sum over all submissions of that submission's
contribution (fan-out for member-pick lists, one for a matching scalar pick
or choice, nothing for short text or a missing answer). -/
theorem countOf_tallySubs (q : Question) (ov : List (String × Nat))
    (subs : List (String × Submission)) (k : String) :
    countOf k (tallySubs q ov subs).tallies =
      (subs.map (fun p => specContrib q k p.2)).sum := by
  rw [tallySubs, countOf_tallySubs_go]
  simp [countOf]

theorem questionResult_top_length (q : Question) (ov : List (String × Nat))
    (subs : List (String × Submission)) :
    (questionResult q ov subs).1.top.length ≤ DEFAULT_TOP_N := by
  unfold questionResult
  dsimp only
  split
  · simp only [List.length_map, List.length_take]
    exact min_le_left _ _
  · simp

theorem questionResult_top_pct (q : Question) (ov : List (String × Nat))
    (subs : List (String × Submission)) (e : TopEntry)
    (he : e ∈ (questionResult q ov subs).1.top) :
    e.pct = pct2 e.count (questionResult q ov subs).1.total_votes := by
  unfold questionResult at he ⊢
  dsimp only at he ⊢
  split at he
  · obtain ⟨p, hp, rfl⟩ := List.mem_map.mp he
    rfl
  · simp at he

/-- The integer percentage in hundredths is exactly
`round((count / total) * 100, 2)`. -/
theorem pct2_eq_round2 (v total : Nat) (h : 0 < total) :
    ((pct2 v total : ℚ)) / 100 = round2 (((v : ℚ) / (total : ℚ)) * 100) := by
  unfold pct2 round2
  have ht : ((total : ℚ)) ≠ 0 := by positivity
  have key : ((v : ℚ) / (total : ℚ) * 100) * 100 + 1 / 2 =
      (((20000 * v + total : ℕ) : ℚ)) / (((2 * total : ℕ) : ℚ)) := by
    push_cast
    field_simp
    ring
  rw [key, Rat.floor_natCast_div_natCast]
  congr 1

/-- The integer landslide test is exactly the `0.6 <= top1 / total` ratio
test of the source, for a nonzero total. -/
theorem landslide_iff_ratio (t c : Nat) (h : t ≠ 0) :
    3 * t ≤ 5 * c ↔ (3 : ℚ) / 5 ≤ (c : ℚ) / (t : ℚ) := by
  have ht : (0 : ℚ) < (t : ℚ) := by positivity
  rw [div_le_div_iff₀ (by norm_num) ht]
  constructor
  · intro hle
    have h2 := (Nat.cast_le (α := ℚ)).mpr hle
    push_cast at h2 ⊢
    linarith
  · intro hle
    have h2 : ((3 * t : ℕ) : ℚ) ≤ ((5 * c : ℕ) : ℚ) := by push_cast; linarith
    exact_mod_cast h2

/-- C2: `compute_results` tallies every question over all submissions,
skipping missing answers — member-pick list answers fan out one count per
listed member, scalar member picks and multiple-choice answers count once for
their key, short text only counts participation (`countOf_tallySubs` against
the spec-side `specContrib`); at most the top `DEFAULT_TOP_N = 3` entries are
kept; each kept entry's percentage is `count / totalVotes * 100` rounded to 2
decimals (`pct2`, related to the rational rounding by `pct2_eq_round2`); and
on the scenario of a member-pick question with answers A, A, B the ranked
result is [(A, 2, 66.67%), (B, 1, 33.33%)] with closest gap 1 and landslide
true (2/3 ≥ 0.6). -/
theorem compute_results_spec :
    (∀ (q : Question) (ov : List (String × Nat)) (subs : List (String × Submission))
        (k : String),
      countOf k (tallySubs q ov subs).tallies =
        (subs.map (fun p => specContrib q k p.2)).sum) ∧
    (∀ (q : Question) (ov : List (String × Nat)) (subs : List (String × Submission)),
      (questionResult q ov subs).1.top.length ≤ DEFAULT_TOP_N) ∧
    (∀ (q : Question) (ov : List (String × Nat)) (subs : List (String × Submission))
        (e : TopEntry), e ∈ (questionResult q ov subs).1.top →
      e.pct = pct2 e.count (questionResult q ov subs).1.total_votes) ∧
    (∀ v total : Nat, 0 < total →
      ((pct2 v total : ℚ)) / 100 = round2 (((v : ℚ) / (total : ℚ)) * 100)) ∧
    (compute_results 50 scenarioRun).per_question = [scenarioQResult] :=
  ⟨countOf_tallySubs, questionResult_top_length, questionResult_top_pct,
   pct2_eq_round2, by decide⟩

/-- Witness for C2's hypothesis-bearing conjuncts at the concrete scenario:
the A entry of the scenario's top list has pct 6667 hundredths = 66.67%. -/
theorem compute_results_spec_witness :
    ((⟨"A", 2, 6667⟩ : TopEntry) ∈ (questionResult scenQ [] scenarioRun.submissions).1.top ∧
      (⟨"A", 2, 6667⟩ : TopEntry).pct =
        pct2 (⟨"A", 2, 6667⟩ : TopEntry).count
          (questionResult scenQ [] scenarioRun.submissions).1.total_votes) ∧
    (0 < 3 ∧ ((pct2 2 3 : ℚ)) / 100 = round2 (((2 : ℚ) / (3 : ℚ)) * 100)) :=
  ⟨⟨by decide,
    compute_results_spec.2.2.1 scenQ [] scenarioRun.submissions _ (by decide)⟩,
   ⟨by decide, by
    have h := compute_results_spec.2.2.2.1 2 3 (by decide)
    exact_mod_cast h⟩⟩

/-! ## Claims C3-C7: lifecycle guards and finalization -/

theorem run_by_id_eq (doc : Document) (rid : String) (run : Run)
    (h : run_by_id doc rid = some run) : doc.active = some run ∧ run.id = rid := by
  unfold run_by_id at h
  cases hact : doc.active with
  | none => simp [hact] at h
  | some r =>
    simp only [hact] at h
    by_cases hid : r.id = rid
    · rw [if_pos hid] at h
      cases h
      exact ⟨rfl, hid⟩
    · rw [if_neg hid] at h
      simp at h

/-- C3: finalization is one persisted document write.  Both
`archive_and_clear_active` (after a reveal, carrying the frozen results) and
the archiving path of `end_run_no_reveal` (results = null) emit exactly one
persisted snapshot, and in that single snapshot the active run is cleared and
the archive is lengthened by exactly the new entry — so no persisted state
has the run still active alongside its archive entry, nor the run cleared
with the entry missing. -/
theorem archive_finalization_single_write :
    (∀ (t : Nat) (run : Run) (doc : Document),
      (archive_and_clear_active t run doc).2 = [(archive_and_clear_active t run doc).1] ∧
        (archive_and_clear_active t run doc).1.active = none ∧
        (archive_and_clear_active t run doc).1.archive =
          doc.archive ++ [archiveEntryOf t run] ∧
        (archiveEntryOf t run).results = run.reveal.computed_results) ∧
    (∀ (t : Nat) (rid : String) (doc : Document) (run : Run),
      run_by_id doc rid = some run →
      (end_run_no_reveal t rid doc).2.2 = [(end_run_no_reveal t rid doc).2.1] ∧
        (end_run_no_reveal t rid doc).2.1.active = none ∧
        (end_run_no_reveal t rid doc).2.1.archive =
          doc.archive ++ [archiveEntryNoResults t run] ∧
        (archiveEntryNoResults t run).results = none) := by
  constructor
  · intro t run doc
    exact ⟨rfl, rfl, rfl, rfl⟩
  · intro t rid doc run h
    simp [end_run_no_reveal, archiveEntryNoResults, h]

/-- Witness for C3 at a concrete document: ending the open run archives it in
one write with a null-results entry. -/
theorem archive_finalization_single_write_witness :
    run_by_id openDoc "r1" = some openRun ∧
    ((end_run_no_reveal 300 "r1" openDoc).2.2 = [(end_run_no_reveal 300 "r1" openDoc).2.1] ∧
      (end_run_no_reveal 300 "r1" openDoc).2.1.active = none ∧
      (end_run_no_reveal 300 "r1" openDoc).2.1.archive =
        openDoc.archive ++ [archiveEntryNoResults 300 openRun] ∧
      (archiveEntryNoResults 300 openRun).results = none) :=
  ⟨by decide, archive_finalization_single_write.2 300 "r1" openDoc openRun (by decide)⟩

/-- C4: a run in `setup_suggestions` with zero questions cannot open
submissions — the operation reports the refusal ("Add at least 1 question
first.", the spec's `PhaseViolation`), the status stays `setup_suggestions`
and the document is returned entirely unchanged. -/
theorem open_submissions_requires_questions (t msg_id : Nat) (doc : Document)
    (run : Run) (hact : doc.active = some run)
    (hst : run.status = .setup_suggestions) (hq : run.questions = []) :
    open_submissions t msg_id run.id doc = (.no_questions, doc) := by
  simp [open_submissions, run_by_id, hact, hst, hq]

/-- Witness for C4: the fresh setup document with no questions. -/
theorem open_submissions_requires_questions_witness :
    setupDoc.active = some baseRun ∧ baseRun.status = .setup_suggestions ∧
      baseRun.questions = [] ∧
      open_submissions 10 77 baseRun.id setupDoc = (.no_questions, setupDoc) :=
  ⟨rfl, rfl, rfl, open_submissions_requires_questions 10 77 setupDoc baseRun rfl rfl rfl⟩

/-- C5 counterexample: `end_run_no_reveal` has no status guard, so the
end-without-reveal transition is possible from `reveal_in_progress` as well —
on a document whose active run is mid step-reveal it succeeds, clears the
active run and appends an archive entry, contradicting "never from
revealing". -/
theorem end_run_no_reveal_from_revealing :
    revealingDoc.active = some revealingRun ∧
      revealingRun.status = .reveal_in_progress ∧
      (end_run_no_reveal 60 "r1" revealingDoc).1 = .ended ∧
      (end_run_no_reveal 60 "r1" revealingDoc).2.1.active = none ∧
      (end_run_no_reveal 60 "r1" revealingDoc).2.1.archive.length = 1 := by
  decide

/-- C5 amended: the end-without-reveal transition to archived is possible
from every status of an active run — setup, open, locked and also revealing
(the source checks only `run_by_id`) — and is a reported no-op once no active
run exists (after archival); the archive entry it writes always has
`results = None`. -/
theorem end_run_no_reveal_any_active_status :
    (∀ (t : Nat) (rid : String) (doc : Document) (run : Run),
      run_by_id doc rid = some run →
      (end_run_no_reveal t rid doc).1 = .ended ∧
        (end_run_no_reveal t rid doc).2.1 =
          { doc with archive := doc.archive ++ [archiveEntryNoResults t run], active := none } ∧
        (archiveEntryNoResults t run).results = none) ∧
    (∀ (t : Nat) (rid : String) (doc : Document), doc.active = none →
      end_run_no_reveal t rid doc = (.no_run, doc, [])) := by
  constructor
  · intro t rid doc run h
    simp [end_run_no_reveal, archiveEntryNoResults, h]
  · intro t rid doc h
    simp [end_run_no_reveal, run_by_id, h]

/-- Witness for C5's amended claim: ending from mid-reveal succeeds with a
null-results entry, and ending again afterwards is a no-op. -/
theorem end_run_no_reveal_any_active_status_witness :
    (run_by_id revealingDoc "r1" = some revealingRun ∧
      ((end_run_no_reveal 60 "r1" revealingDoc).1 = .ended ∧
        (end_run_no_reveal 60 "r1" revealingDoc).2.1 =
          { revealingDoc with
              archive := revealingDoc.archive ++ [archiveEntryNoResults 60 revealingRun]
              active := none } ∧
        (archiveEntryNoResults 60 revealingRun).results = none)) ∧
    ((default_data : Document).active = none ∧
      end_run_no_reveal 60 "r1" default_data = (.no_run, default_data, [])) :=
  ⟨⟨by decide, end_run_no_reveal_any_active_status.1 60 "r1" revealingDoc revealingRun (by decide)⟩,
   ⟨rfl, end_run_no_reveal_any_active_status.2 60 "r1" default_data rfl⟩⟩

/-- C6 counterexample: the suggestions channel assignment can change outside
`setup_suggestions` — on a run with status `open`, `set_channel` succeeds and
replaces the suggestions channel, contradicting "changes only while the
run's status is setup". -/
theorem set_channel_suggestions_outside_setup :
    openRun.status = .open_ ∧ openRun.channels.suggestions = none ∧
      (set_channel "r1" .suggestions (some 300) openDoc).1 = .ok ∧
      ((set_channel "r1" .suggestions (some 300) openDoc).2.active.map
        (fun r => r.channels.suggestions)) = some (some 300) := by
  decide

/-- C6 amended: `set_channel` refuses every channel key exactly while the
run's status is `reveal_in_progress`, leaving the document unchanged — so no
channel assignment ever changes while revealing — and in every other status
of an active run it applies the assignment (the suggestions channel included,
which is therefore not restricted to setup). -/
theorem set_channel_guard :
    (∀ (rid : String) (key : ChannelKey) (cid : Option Nat) (doc : Document)
        (run : Run), run_by_id doc rid = some run →
      run.status = .reveal_in_progress →
      set_channel rid key cid doc = (.reveal_locked, doc)) ∧
    (∀ (rid : String) (key : ChannelKey) (cid : Option Nat) (doc : Document)
        (run : Run), run_by_id doc rid = some run →
      run.status ≠ .reveal_in_progress →
      set_channel rid key cid doc =
        (.ok, { doc with
                  active := some { run with channels := setChannelField run.channels key cid } })) := by
  constructor
  · intro rid key cid doc run h hst
    simp [set_channel, h, hst]
  · intro rid key cid doc run h hst
    simp [set_channel, h, hst]

/-- Witness for C6's amended claim: refused while revealing, applied while
open. -/
theorem set_channel_guard_witness :
    (run_by_id revealingDoc "r1" = some revealingRun ∧
      revealingRun.status = .reveal_in_progress ∧
      set_channel "r1" .results (some 400) revealingDoc = (.reveal_locked, revealingDoc)) ∧
    (run_by_id openDoc "r1" = some openRun ∧ openRun.status ≠ .reveal_in_progress ∧
      set_channel "r1" .suggestions (some 300) openDoc =
        (.ok, { openDoc with
                  active := some { openRun with
                    channels := setChannelField openRun.channels .suggestions (some 300) } })) :=
  ⟨⟨by decide, rfl,
    set_channel_guard.1 "r1" .results (some 400) revealingDoc revealingRun (by decide) rfl⟩,
   ⟨by decide, by decide,
    set_channel_guard.2 "r1" .suggestions (some 300) openDoc openRun (by decide) (by decide)⟩⟩

/-- C7 counterexample: `save_answer` invoked after the run's deadline is a
silent no-op, not a reported violation — at second 200 against a deadline of
100 the document is returned unchanged (the submission is not recorded) and
no violation message is sent; the modal caller even replies "✅ Saved."
unconditionally.  This contradicts "reports the violation to the caller" and
the general "never silently ignored". -/
theorem save_answer_after_deadline_silent :
    openRun.deadline = some 100 ∧
      short_text_modal_submit 200 "r1" 7 "q1" (.single "beans") openDoc =
        (openDoc, ["✅ Saved."]) := by
  decide

/-- C7 amended: `save_answer` on a missing run or past the deadline leaves
the document (and hence the submission) unchanged and sends nothing at all —
a silent no-op rather than a surfaced `PhaseViolation` (its UI callers reply
with an unconditional success message). -/
theorem save_answer_silent_noop :
    (∀ (t : Nat) (rid : String) (uid : Nat) (qid : String) (v : Ans)
        (doc : Document), run_by_id doc rid = none →
      save_answer t rid uid qid v doc = (doc, [])) ∧
    (∀ (t : Nat) (rid : String) (uid : Nat) (qid : String) (v : Ans)
        (doc : Document) (run : Run) (dl : Nat),
      run_by_id doc rid = some run → run.deadline = some dl → dl < t →
      save_answer t rid uid qid v doc = (doc, [])) := by
  constructor
  · intro t rid uid qid v doc h
    simp [save_answer, h]
  · intro t rid uid qid v doc run dl h hdl hlt
    simp [save_answer, h, hdl, hlt]

/-- Witness for C7's amended claim at the concrete open document. -/
theorem save_answer_silent_noop_witness :
    (run_by_id default_data "r1" = none ∧
      save_answer 200 "r1" 7 "q1" (.single "beans") default_data = (default_data, [])) ∧
    (run_by_id openDoc "r1" = some openRun ∧ openRun.deadline = some 100 ∧ 100 < 200 ∧
      save_answer 200 "r1" 7 "q1" (.single "beans") openDoc = (openDoc, [])) :=
  ⟨⟨rfl, save_answer_silent_noop.1 200 "r1" 7 "q1" (.single "beans") default_data rfl⟩,
   ⟨by decide, rfl, by decide,
    save_answer_silent_noop.2 200 "r1" 7 "q1" (.single "beans") openDoc openRun 100
      (by decide) rfl (by decide)⟩⟩

/-! ## Claim C8: step reveal -/

theorem resultsFold_qids (subs : List (String × Submission)) (qs : List Question)
    (acc : List QResult × List (String × Nat)) :
    (resultsFold subs acc qs).1.map (fun p => p.qid) =
      acc.1.map (fun p => p.qid) ++ qs.map (fun q => q.id) := by
  induction qs generalizing acc with
  | nil => simp [resultsFold]
  | cons q qs ih =>
    simp only [resultsFold]
    rw [ih]
    simp [questionResult]

theorem compute_results_qids (t : Nat) (r : Run) :
    (compute_results t r).per_question.map (fun p => p.qid) =
      (sortByOrder r.questions).map (fun q => q.id) := by
  simp [compute_results, resultsFold_qids]

/-- C8: in step mode, a `reveal_next` invocation on an active revealing run
with a not-yet-revealed question emits exactly that one question's frozen
result and increments the reveal index by one; when questions remain, the run
stays active with the incremented index and nothing is archived; the
invocation revealing the last question instead finalizes — it clears the
active run and appends the archive entry.  The frozen per-question results
are in the original question order (`compute_results` lists them sorted by
`order`, last conjunct), so consecutive invocations emit them in that
order. -/
theorem reveal_next_step (t cm : Nat) (rid : String) (doc : Document) (run : Run)
    (res : Results) (hact : doc.active = some run) (hid : run.id = rid)
    (hst : run.status = .reveal_in_progress)
    (hres : run.reveal.computed_results = some res)
    (hidx : run.reveal.current_index < res.per_question.length) :
    (reveal_next t cm rid doc).2.2.1 =
        [res.per_question.get ⟨run.reveal.current_index, hidx⟩] ∧
      (run.reveal.current_index + 1 < res.per_question.length →
        (reveal_next t cm rid doc).1 = .revealed ∧
          (∃ run1, (reveal_next t cm rid doc).2.1.active = some run1 ∧
            run1.reveal.current_index = run.reveal.current_index + 1) ∧
          (reveal_next t cm rid doc).2.1.archive = doc.archive) ∧
      (res.per_question.length = run.reveal.current_index + 1 →
        (reveal_next t cm rid doc).1 = .revealed_and_archived ∧
          (reveal_next t cm rid doc).2.1.active = none ∧
          (reveal_next t cm rid doc).2.1.archive.length = doc.archive.length + 1) ∧
      (∀ (t2 : Nat) (r : Run),
        (compute_results t2 r).per_question.map (fun p => p.qid) =
          (sortByOrder r.questions).map (fun q => q.id)) := by
  have hrun : run_by_id doc rid = some run := by
    simp [run_by_id, hact, hid]
  have hne : ¬run.status ≠ Status.reveal_in_progress := by simp [hst]
  refine ⟨?_, ?_, ?_, fun t2 r => compute_results_qids t2 r⟩
  · simp only [reveal_next, hrun]
    rw [if_neg hne]
    simp only [hres]
    rw [dif_pos hidx]
    split <;> rfl
  · intro hlt
    simp only [reveal_next, hrun]
    rw [if_neg hne]
    simp only [hres]
    rw [dif_pos hidx, if_neg (by omega)]
    exact ⟨rfl, ⟨_, rfl, rfl⟩, rfl⟩
  · intro heq
    simp only [reveal_next, hrun]
    rw [if_neg hne]
    simp only [hres]
    rw [dif_pos hidx, if_pos (by omega)]
    refine ⟨rfl, rfl, ?_⟩
    simp [archive_and_clear_active]

/-- Witness for C8 on the concrete one-question revealing document: the
single `reveal_next` call reveals the last question and archives. -/
theorem reveal_next_step_witness :
    (revealingRun.reveal.current_index <
        (compute_results 50 scenarioRun).per_question.length) ∧
      ((reveal_next 60 900 "r1" revealingDoc).1 = .revealed_and_archived ∧
        (reveal_next 60 900 "r1" revealingDoc).2.1.active = none ∧
        (reveal_next 60 900 "r1" revealingDoc).2.1.archive.length =
          revealingDoc.archive.length + 1) :=
  ⟨by decide,
   (reveal_next_step 60 900 "r1" revealingDoc revealingRun
      (compute_results 50 scenarioRun) rfl rfl rfl rfl (by decide)).2.2.1 (by decide)⟩

/-! ## Claim C9: dense question orders -/

theorem insertByOrder_length (q : Question) (l : List Question) :
    (insertByOrder q l).length = l.length + 1 := by
  induction l with
  | nil => rfl
  | cons x xs ih => by_cases h : x.order ≤ q.order <;> simp [insertByOrder, h, ih]

theorem sortByOrder_go_length (l acc : List Question) :
    (l.foldl (fun acc q => insertByOrder q acc) acc).length = acc.length + l.length := by
  induction l generalizing acc with
  | nil => simp
  | cons q qs ih =>
    simp only [List.foldl_cons, List.length_cons]
    rw [ih, insertByOrder_length]
    omega

theorem sortByOrder_length (l : List Question) :
    (sortByOrder l).length = l.length := by
  simp [sortByOrder, sortByOrder_go_length]

theorem assignOrders_length (i : Nat) (l : List Question) :
    (assignOrders i l).length = l.length := by
  induction l generalizing i with
  | nil => rfl
  | cons q qs ih => simp [assignOrders, ih]

theorem assignOrders_map_order (i : Nat) (l : List Question) :
    (assignOrders i l).map (fun q => q.order) = List.range' i l.length := by
  induction l generalizing i with
  | nil => simp [assignOrders]
  | cons q qs ih => simp [assignOrders, ih, List.range'_succ]

theorem swapL_length (l : List Question) (i j : Nat) :
    (swapL l i j).length = l.length := by
  rw [swapL]
  cases h1 : l.get? i <;> cases h2 : l.get? j <;> simp

/-- C9: the question orders form a dense 0-based rank after every mutation —
whenever `move_question` or `remove_question` succeeds, the resulting
question list carries orders exactly `0, 1, ..., n-1` in list position order
(and a move preserves the number of questions); in particular removing the
order-1 question from a three-question list leaves questions `qa, qc` with
orders `[0, 1]`. -/
theorem question_orders_dense :
    (∀ (rid qid : String) (delta : Int) (doc : Document) (run : Run),
      run_by_id doc rid = some run → (move_question rid qid delta doc).1 = .ok →
      ∃ run2, (move_question rid qid delta doc).2.active = some run2 ∧
        run2.questions.map (fun q => q.order) = List.range run2.questions.length ∧
        run2.questions.length = run.questions.length) ∧
    (∀ (rid qid : String) (doc : Document) (run : Run),
      run_by_id doc rid = some run → (remove_question rid qid doc).1 = .ok →
      ∃ run2, (remove_question rid qid doc).2.active = some run2 ∧
        run2.questions.map (fun q => q.order) = List.range run2.questions.length) ∧
    ((remove_question "r1" "qb" threeQDoc).2.active.map
        (fun r => r.questions.map (fun q => q.order)) = some [0, 1] ∧
      (remove_question "r1" "qb" threeQDoc).2.active.map
        (fun r => r.questions.map (fun q => q.id)) = some ["qa", "qc"]) := by
  refine ⟨?_, ?_, by decide, by decide⟩
  · intro rid qid delta doc run hrun hok
    simp only [move_question, hrun] at hok ⊢
    by_cases hst : run.status ≠ .setup_suggestions
    · rw [if_pos hst] at hok
      simp at hok
    · rw [if_neg hst] at hok ⊢
      cases hidx : (sortByOrder run.questions).findIdx? (fun q => q.id = qid) with
      | none =>
        simp only [hidx] at hok
        simp at hok
      | some idx =>
        simp only [hidx]
        refine ⟨_, rfl, ?_, ?_⟩
        · rw [assignOrders_map_order, assignOrders_length, List.range_eq_range']
        · rw [assignOrders_length, swapL_length, sortByOrder_length]
  · intro rid qid doc run hrun hok
    simp only [remove_question, hrun] at hok ⊢
    by_cases hst : run.status ≠ .setup_suggestions
    · rw [if_pos hst] at hok
      simp at hok
    · rw [if_neg hst]
      refine ⟨_, rfl, ?_⟩
      rw [assignOrders_map_order, assignOrders_length, List.range_eq_range']

/-- Witness for C9: moving the first question down one slot in the concrete
three-question document succeeds and keeps the orders dense. -/
theorem question_orders_dense_witness :
    run_by_id threeQDoc "r1" = some threeQRun ∧
      (move_question "r1" "qa" 1 threeQDoc).1 = .ok ∧
      ∃ run2, (move_question "r1" "qa" 1 threeQDoc).2.active = some run2 ∧
        run2.questions.map (fun q => q.order) = List.range run2.questions.length ∧
        run2.questions.length = threeQRun.questions.length :=
  ⟨by decide, by decide,
   question_orders_dense.1 "r1" "qa" 1 threeQDoc threeQRun (by decide) (by decide)⟩

/-! ## Claim C10: time-derived question ids -/

theorem run_by_id_some (doc : Document) (r : Run) (rid : String) (h : r.id = rid) :
    run_by_id { doc with active := some r } rid = some r := by
  simp [run_by_id, h]

theorem create_short_text_ok (t : Nat) (rid txt : String) (doc : Document)
    (run : Run) (hrun : run_by_id doc rid = some run)
    (hst : run.status = .setup_suggestions) :
    create_question_short_text t rid txt doc =
      (.ok, { doc with active := some { run with questions := run.questions ++
        [{ id := next_qid t, text := pyTrim txt 140, qtype := .short_text, max := 1,
           required := true, choices := [], enabled := true,
           order := run.questions.length }] } }) := by
  have hne : ¬run.status ≠ Status.setup_suggestions := by simp [hst]
  simp only [create_question_short_text, hrun, if_neg hne]

/-- C10: `_next_qid` is derived solely from the current whole-second unix
timestamp — the id is "q_" followed by the integer seconds — so two question
creations executed in the same wall-clock second produce the same id: adding
two short-text questions at the same second `t` to a setup run appends two
questions both carrying `next_qid t`, and the run's question-id list is no
longer duplicate-free. -/
theorem next_qid_time_collision :
    (∀ t : Nat, next_qid t = "q_" ++ toString t) ∧
    (∀ (t : Nat) (rid txt1 txt2 : String) (doc : Document) (run : Run),
      run_by_id doc rid = some run → run.status = .setup_suggestions →
      ∃ run2,
        (create_question_short_text t rid txt2
            (create_question_short_text t rid txt1 doc).2).2.active = some run2 ∧
          run2.questions.map (fun q => q.id) =
            run.questions.map (fun q => q.id) ++ [next_qid t, next_qid t] ∧
          ¬(run2.questions.map (fun q => q.id)).Nodup) := by
  refine ⟨fun t => rfl, ?_⟩
  intro t rid txt1 txt2 doc run hrun hst
  obtain ⟨hact, hid⟩ := run_by_id_eq doc rid run hrun
  have e1 : (create_question_short_text t rid txt1 doc).2 =
      { doc with active := some { run with questions := run.questions ++
        [{ id := next_qid t, text := pyTrim txt1 140, qtype := .short_text, max := 1,
           required := true, choices := [], enabled := true,
           order := run.questions.length }] } } := by
    rw [create_short_text_ok t rid txt1 doc run hrun hst]
  rw [e1]
  have hrun1 := run_by_id_some doc
    { run with questions := run.questions ++
        [{ id := next_qid t, text := pyTrim txt1 140, qtype := .short_text, max := 1,
           required := true, choices := [], enabled := true,
           order := run.questions.length }] } rid hid
  rw [create_short_text_ok t rid txt2 _ _ hrun1 hst]
  refine ⟨_, rfl, ?_, ?_⟩
  · simp
  · simp [List.nodup_append]

/-- Witness for C10 at the fresh setup document: two creations at second 123
yield duplicate ids `q_123`. -/
theorem next_qid_time_collision_witness :
    run_by_id setupDoc "r1" = some baseRun ∧ baseRun.status = .setup_suggestions ∧
      ∃ run2,
        (create_question_short_text 123 "r1" "second question"
            (create_question_short_text 123 "r1" "first question" setupDoc).2).2.active =
          some run2 ∧
          run2.questions.map (fun q => q.id) =
            baseRun.questions.map (fun q => q.id) ++ [next_qid 123, next_qid 123] ∧
          ¬(run2.questions.map (fun q => q.id)).Nodup :=
  ⟨by decide, rfl,
   next_qid_time_collision.2 123 "r1" "first question" "second question" setupDoc baseRun
     (by decide) rfl⟩

end Awards
